import Mathlib

/-!
Verification of the submission-form component and the configuration-fetch
service of this repository, via a shallow embedding of the two TypeScript
source files into Lean.

Files embedded:
* `src/unnamed/part_000` — class `MyComponent` (reactive form with a `name`
  control, a `selectedFiles` array, `onFilesSelected`, `onSubmit`).
* `src/awjdna.ts` — class `ConfigService` (`loadConfig`).

The HTTP transport (`HttpClient`) is modelled as an explicit function from
requests to results; each operation returns, alongside its value, the list
of requests it issued, so that `exactly one request` is a statement about
the embedding rather than an assumption.
-/

/-- A user-selected file handle: an original name plus opaque binary
content (modelled as a list of bytes). -/
structure FileHandle where
  name : String
  content : List Nat
  deriving Repr, DecidableEq

/-- One part of a multipart `FormData` body: either a text part
(`formData.append(key, string)`) or a file part
(`formData.append(key, file, filename)`, where the third argument is the
filename metadata carried by the part). -/
inductive FormPart where
  | text (key : String) (value : String)
  | file (key : String) (file : FileHandle) (filename : String)
  deriving Repr, DecidableEq

/-- The key under which a part is appended. -/
def FormPart.key : FormPart → String
  | .text k _ => k
  | .file k _ _ => k

/-- Number of parts of a multipart body appended under a given key. -/
def countKey (parts : List FormPart) (k : String) : Nat :=
  (parts.filter (fun p => p.key == k)).length

/-- An Angular `AbstractControl` restricted to what the source uses: a
current string value. -/
structure FormControl where
  value : String
  deriving Repr, DecidableEq

/-- A reactive `FormGroup`: an association list from control names to
controls, as produced by `FormBuilder.group`. -/
structure FormGroup where
  controls : List (String × FormControl)
  deriving Repr, DecidableEq

/-- `FormGroup#get(key)`: the control registered under `key`, or `none`
(the `null` of the source) when no such control exists. -/
def FormGroup.get (fg : FormGroup) (key : String) : Option FormControl :=
  (fg.controls.find? (fun c => c.1 == key)).map Prod.snd

/-- Framework-managed user input: editing a control only updates the value
of an already-registered control, never adds or removes controls. -/
def FormGroup.setControlValue (fg : FormGroup) (key : String) (v : String) : FormGroup :=
  ⟨fg.controls.map (fun c => if c.1 = key then (c.1, FormControl.mk v) else c)⟩

/-- `FormBuilder#group`: builds a `FormGroup` from name/initial-value
pairs, as in `this.fb.group(...)` of the constructor. -/
def FormBuilder.group (controls : List (String × FormControl)) : FormGroup :=
  ⟨controls⟩

/-- String conversion that JavaScript `FormData.append` applies to its
second argument: a string stays itself, and `undefined` (the result of the
optional chain when the control is missing) is stringified. -/
def jsFormDataString : Option String → String
  | some s => s
  | none => "undefined"

/-- An HTTP request as issued through the `HttpClient`: method, url (the
source uses relative paths with no query string), optional query string,
optional multipart body. -/
structure HttpRequest where
  method : String
  url : String
  queryString : Option String
  body : Option (List FormPart)
  deriving Repr, DecidableEq

/-- The eventual outcome delivered by the transport for one request:
success with a response body, or transport failure with an error. -/
inductive HttpResult where
  | success (response : String)
  | failure (error : String)
  deriving Repr, DecidableEq

/-- One notification written to the observation sink (the console) by the
subscribe callbacks of `onSubmit`. -/
inductive LogEntry where
  | logSuccess (response : String)
  | logError (error : String)
  deriving Repr, DecidableEq

/-- The state of `MyComponent`: the reactive form (`myForm`) and the
current file selection (`selectedFiles`). -/
structure MyComponent where
  myForm : FormGroup
  selectedFiles : List FileHandle
  deriving Repr, DecidableEq

/-- The constructor of `MyComponent`: `myForm = fb.group(\x7b name: [''] \x7d)`
and the field initializer `selectedFiles = []`. -/
def MyComponent.new : MyComponent :=
  { myForm := FormBuilder.group [("name", FormControl.mk "")]
    selectedFiles := [] }

/-- `onFilesSelected(event)`: `this.selectedFiles = Array.from(event.target.files)`.
The event is modelled by the ordered file sequence it carries. -/
def MyComponent.onFilesSelected (s : MyComponent) (eventTargetFiles : List FileHandle) :
    MyComponent :=
  { s with selectedFiles := eventTargetFiles }

/-- The optional chain `this.myForm.get('name')?.value`. -/
def MyComponent.nameFieldRead (s : MyComponent) : Option String :=
  (s.myForm.get "name").map FormControl.value

/-- The `FormData` built inside `onSubmit`: first
`formData.append('name', this.myForm.get('name')?.value)`, then
`this.selectedFiles.forEach(file => formData.append('source_files', file, file.name))`. -/
def MyComponent.buildFormData (s : MyComponent) : List FormPart :=
  let formData : List FormPart := []
  let formData := formData ++ [FormPart.text "name" (jsFormDataString s.nameFieldRead)]
  s.selectedFiles.foldl (fun fd file => fd ++ [FormPart.file "source_files" file file.name]) formData

/-- The request issued by `this.http.post('/your-api-endpoint', formData)`. -/
def MyComponent.submitRequest (s : MyComponent) : HttpRequest :=
  { method := "POST"
    url := "/your-api-endpoint"
    queryString := none
    body := some s.buildFormData }

/-- `onSubmit()`: builds the form data, posts it once, and subscribes with
`res => console.log('Success', res)` and `err => console.error('Error', err)`.
Returns the component state after the call (the method mutates nothing),
the list of requests issued, and the log entries recorded. -/
def MyComponent.onSubmit (s : MyComponent) (http : HttpRequest → HttpResult) :
    MyComponent × List HttpRequest × List LogEntry :=
  let req := s.submitRequest
  let logs :=
    match http req with
    | .success r => [LogEntry.logSuccess r]
    | .failure e => [LogEntry.logError e]
  (s, [req], logs)

/-- The reachable states of `MyComponent`: the constructed state, followed
by any interleaving of framework-managed control edits, file selections,
and submits (which leave the state unchanged). -/
inductive MyComponent.Reachable : MyComponent → Prop where
  | new : MyComponent.Reachable MyComponent.new
  | input (key v : String) (s : MyComponent) : MyComponent.Reachable s →
      MyComponent.Reachable { s with myForm := s.myForm.setControlValue key v }
  | filesSelected (files : List FileHandle) (s : MyComponent) : MyComponent.Reachable s →
      MyComponent.Reachable (s.onFilesSelected files)

/-- The request issued by `this.http.get('/api/config')`: a GET to the
relative path, no query string, no body. -/
def configRequest : HttpRequest :=
  { method := "GET", url := "/api/config", queryString := none, body := none }

/-- `loadConfig()`: `return this.http.get('/api/config')`. Returns the
transport's result unmodified, together with the list of requests issued. -/
def ConfigService.loadConfig (http : HttpRequest → HttpResult) :
    HttpResult × List HttpRequest :=
  (http configRequest, [configRequest])

/-! ## Helper lemmas -/

/-- The `forEach` loop of `onSubmit` appends exactly the mapped file parts
after whatever is already in the form data. -/
theorem foldl_append_fileParts (files : List FileHandle) (init : List FormPart) :
    files.foldl (fun fd file => fd ++ [FormPart.file "source_files" file file.name]) init
      = init ++ files.map (fun file => FormPart.file "source_files" file file.name) := by
  induction files generalizing init with
  | nil => simp
  | cons f fs ih => simp [List.foldl_cons, ih]

/-- Closed form of the multipart body built by `onSubmit`: the `name` text
part followed by one `source_files` part per selected file, in order. -/
theorem buildFormData_eq (s : MyComponent) :
    s.buildFormData
      = FormPart.text "name" (jsFormDataString s.nameFieldRead)
        :: s.selectedFiles.map (fun f => FormPart.file "source_files" f f.name) := by
  unfold MyComponent.buildFormData
  simp [foldl_append_fileParts]

/-- Editing a control value preserves which control names are registered. -/
theorem get_setControlValue_isSome (fg : FormGroup) (key v name : String) :
    ((fg.setControlValue key v).get name).isSome = (fg.get name).isSome := by
  unfold FormGroup.setControlValue FormGroup.get
  rw [List.find?_map]
  have hp : ((fun c : String × FormControl => c.1 == name)
        ∘ fun c => if c.1 = key then (c.1, FormControl.mk v) else c)
      = fun c : String × FormControl => c.1 == name := by
    funext c
    by_cases h : c.1 = key <;> simp [h]
  rw [hp]
  simp

/-! ## Concrete fixtures for witnesses -/

/-- Fixture file `a.txt` from the spec scenario. -/
def demoFileA : FileHandle := ⟨"a.txt", [97]⟩

/-- Fixture file `b.png` from the spec scenario. -/
def demoFileB : FileHandle := ⟨"b.png", [98, 99]⟩

/-- Fixture component: constructed, name set to `Alice`, files `a.txt` and
`b.png` selected, as in the spec scenario. -/
def demoComponent : MyComponent :=
  ({ MyComponent.new with
      myForm := MyComponent.new.myForm.setControlValue "name" "Alice" }).onFilesSelected
    [demoFileA, demoFileB]

/-- Fixture component with an additional unrelated form control but the
same name value and file selection as `demoComponent`. -/
def demoComponentB : MyComponent :=
  { myForm := FormBuilder.group [("name", FormControl.mk "Alice"), ("age", FormControl.mk "30")]
    selectedFiles := [demoFileA, demoFileB] }

/-- Fixture transport that succeeds on every request. -/
def demoTransportOk : HttpRequest → HttpResult := fun _ => HttpResult.success "ok"

/-- Fixture transport that fails on every request. -/
def demoTransportFail : HttpRequest → HttpResult := fun _ => HttpResult.failure "network down"

/-! ## Claims -/

/-- C1: for every file selection of size N and every current name string,
`onSubmit` issues a single POST to the fixed path `/your-api-endpoint`
whose multipart body is exactly one `name` part holding the name field's
current string value, followed by exactly N `source_files` parts, one per
selected file in selection order, each carrying the file's original name
as filename metadata. -/
theorem C1_submit_payload (s : MyComponent) (v : String)
    (http : HttpRequest → HttpResult) (h : s.nameFieldRead = some v) :
    (s.onSubmit http).2.1 = [s.submitRequest] ∧
    s.submitRequest.method = "POST" ∧
    s.submitRequest.url = "/your-api-endpoint" ∧
    s.submitRequest.body
      = some (FormPart.text "name" v
          :: s.selectedFiles.map (fun f => FormPart.file "source_files" f f.name)) := by
  refine ⟨rfl, rfl, rfl, ?_⟩
  simp [MyComponent.submitRequest, buildFormData_eq, h, jsFormDataString]

/-- Witness for C1 at the spec scenario: name `Alice`, files `a.txt` and
`b.png`. -/
theorem C1_submit_payload_witness :
    (demoComponent.onSubmit demoTransportOk).2.1 = [demoComponent.submitRequest] ∧
    demoComponent.submitRequest.method = "POST" ∧
    demoComponent.submitRequest.url = "/your-api-endpoint" ∧
    demoComponent.submitRequest.body
      = some (FormPart.text "name" "Alice"
          :: demoComponent.selectedFiles.map (fun f => FormPart.file "source_files" f f.name)) :=
  C1_submit_payload demoComponent "Alice" demoTransportOk (by decide)

/-- C2: every invocation of `loadConfig` issues exactly one GET request to
the relative path `/api/config` with no query string and no request body,
and hands the transport's response to the caller unmodified, with no
parsing, validation, or caching. -/
theorem C2_loadConfig_single_get (http : HttpRequest → HttpResult) :
    (ConfigService.loadConfig http).2 = [configRequest] ∧
    configRequest.method = "GET" ∧
    configRequest.url = "/api/config" ∧
    configRequest.queryString = none ∧
    configRequest.body = none ∧
    (ConfigService.loadConfig http).1 = http configRequest :=
  ⟨rfl, rfl, rfl, rfl, rfl, rfl⟩

/-- C3: `onFilesSelected` replaces rather than appends: selecting A and
then B leaves the component in the same state as selecting B alone, so a
subsequent `onSubmit` behaves identically. -/
theorem C3_selectFiles_replaces (s : MyComponent) (A B : List FileHandle)
    (http : HttpRequest → HttpResult) :
    (s.onFilesSelected A).onFilesSelected B = s.onFilesSelected B ∧
    ((s.onFilesSelected A).onFilesSelected B).onSubmit http
      = (s.onFilesSelected B).onSubmit http :=
  ⟨rfl, rfl⟩

/-- C4: when the name field's current value is the empty string, the built
multipart body still begins with a `name` part holding the empty string,
and that is the only `name` part; the part is not omitted. -/
theorem C4_empty_name_included (s : MyComponent) (h : s.nameFieldRead = some "") :
    s.buildFormData.head? = some (FormPart.text "name" "") ∧
    countKey s.buildFormData "name" = 1 := by
  rw [buildFormData_eq, h]
  refine ⟨rfl, ?_⟩
  simp [countKey, FormPart.key, jsFormDataString, List.filter_map]

/-- Witness for C4 at the freshly constructed component, whose name value
is the empty string. -/
theorem C4_empty_name_included_witness :
    MyComponent.new.buildFormData.head? = some (FormPart.text "name" "") ∧
    countKey MyComponent.new.buildFormData "name" = 1 :=
  C4_empty_name_included MyComponent.new (by decide)

/-- C5: on transport failure of the POST, `onSubmit` returns normally to
its caller, records exactly one failure notification to the observation
sink, and leaves the caller-visible component state unchanged. -/
theorem C5_failure_logged_only (s : MyComponent) (http : HttpRequest → HttpResult)
    (e : String) (h : http s.submitRequest = HttpResult.failure e) :
    (s.onSubmit http).2.2 = [LogEntry.logError e] ∧
    (s.onSubmit http).1 = s := by
  refine ⟨?_, rfl⟩
  show (match http s.submitRequest with
    | HttpResult.success r => [LogEntry.logSuccess r]
    | HttpResult.failure e => [LogEntry.logError e]) = [LogEntry.logError e]
  rw [h]

/-- Witness for C5 with a transport that fails every request. -/
theorem C5_failure_logged_only_witness :
    (MyComponent.new.onSubmit demoTransportFail).2.2 = [LogEntry.logError "network down"] ∧
    (MyComponent.new.onSubmit demoTransportFail).1 = MyComponent.new :=
  C5_failure_logged_only MyComponent.new demoTransportFail "network down" rfl

/-- C6: `loadConfig` catches nothing: when the transport fails, the handle
returned to the caller resolves to exactly that failure, unmodified. -/
theorem C6_loadConfig_propagates_failure (http : HttpRequest → HttpResult) (e : String)
    (h : http configRequest = HttpResult.failure e) :
    (ConfigService.loadConfig http).1 = HttpResult.failure e := h

/-- Witness for C6 with a transport that fails every request. -/
theorem C6_loadConfig_propagates_failure_witness :
    (ConfigService.loadConfig demoTransportFail).1 = HttpResult.failure "network down" :=
  C6_loadConfig_propagates_failure demoTransportFail "network down" rfl

/-- C7: `onSubmit` performs no rollback on failure: after a failed submit
the file selection and the name field both equal their values before the
call. -/
theorem C7_no_rollback (s : MyComponent) (http : HttpRequest → HttpResult) (e : String)
    (_h : http s.submitRequest = HttpResult.failure e) :
    (s.onSubmit http).1.selectedFiles = s.selectedFiles ∧
    (s.onSubmit http).1.nameFieldRead = s.nameFieldRead :=
  ⟨rfl, rfl⟩

/-- Witness for C7 at the spec-scenario component with a failing
transport. -/
theorem C7_no_rollback_witness :
    (demoComponent.onSubmit demoTransportFail).1.selectedFiles = demoComponent.selectedFiles ∧
    (demoComponent.onSubmit demoTransportFail).1.nameFieldRead = demoComponent.nameFieldRead :=
  C7_no_rollback demoComponent demoTransportFail "network down" rfl

/-- C8: every reachable component state registers a `name` control, so the
optional chain in `onSubmit` never takes its undefined branch: the part
appended under key `name` always holds the control's actual string
value. -/
theorem C8_name_control_present (s : MyComponent) (h : s.Reachable) :
    (s.nameFieldRead).isSome = true ∧
    s.buildFormData.head? = s.nameFieldRead.map (FormPart.text "name") := by
  have hs : (s.myForm.get "name").isSome = true := by
    induction h with
    | new => decide
    | input key v u hu ih => simpa [get_setControlValue_isSome] using ih
    | filesSelected files u hu ih => simpa [MyComponent.onFilesSelected] using ih
  have hv : (s.nameFieldRead).isSome = true := by
    simp [MyComponent.nameFieldRead, hs]
  refine ⟨hv, ?_⟩
  obtain ⟨v, hveq⟩ := Option.isSome_iff_exists.mp hv
  rw [buildFormData_eq, hveq]
  simp [jsFormDataString]

/-- Witness for C8 at the freshly constructed component. -/
theorem C8_name_control_present_witness :
    (MyComponent.new.nameFieldRead).isSome = true ∧
    MyComponent.new.buildFormData.head?
      = MyComponent.new.nameFieldRead.map (FormPart.text "name") :=
  C8_name_control_present MyComponent.new MyComponent.Reachable.new

/-- C9: payload construction is deterministic and depends only on the name
value and the file selection: two components agreeing on both construct
the identical request (same parts, same keys, same order, same endpoint),
and their submits issue identical request traces. -/
theorem C9_deterministic (s t : MyComponent) (http : HttpRequest → HttpResult)
    (h1 : s.nameFieldRead = t.nameFieldRead) (h2 : s.selectedFiles = t.selectedFiles) :
    s.submitRequest = t.submitRequest ∧
    (s.onSubmit http).2.1 = (t.onSubmit http).2.1 := by
  have hb : s.buildFormData = t.buildFormData := by
    rw [buildFormData_eq, buildFormData_eq, h1, h2]
  have hr : s.submitRequest = t.submitRequest := by
    unfold MyComponent.submitRequest
    rw [hb]
  refine ⟨hr, ?_⟩
  show [s.submitRequest] = [t.submitRequest]
  rw [hr]

/-- Witness for C9: two components with the same name value and selection
but different unrelated form controls build the same request. -/
theorem C9_deterministic_witness :
    demoComponent.submitRequest = demoComponentB.submitRequest ∧
    (demoComponent.onSubmit demoTransportOk).2.1
      = (demoComponentB.onSubmit demoTransportOk).2.1 :=
  C9_deterministic demoComponent demoComponentB demoTransportOk (by decide) (by decide)

/-- C10: the file selection is initialized to the empty sequence, so a
submit on the freshly constructed component builds a payload with exactly
one `name` part and zero `source_files` parts. -/
theorem C10_initial_selection_empty :
    MyComponent.new.selectedFiles = [] ∧
    MyComponent.new.buildFormData = [FormPart.text "name" ""] ∧
    countKey MyComponent.new.buildFormData "name" = 1 ∧
    countKey MyComponent.new.buildFormData "source_files" = 0 := by
  refine ⟨rfl, ?_, ?_, ?_⟩ <;> decide
